import Mathlib

/-!
Verification of the `deploy-ntt` orchestration script.

The script parses command-line flags into a `DeploymentConfig`, checks that
five external tools are installed, and then runs a fixed sequence of external
commands (`ntt new`, `ntt init`, writing `overrides.json`, an optional
burning-mode keypair/mint-authority preparation, `ntt add-chain` twice,
`ntt push`, and a final read of `deployment.json`).

The embedding below models the script as pure functions over an explicit
`World` (the behaviour of external commands, the filesystem existence check,
and the working-directory listing used by the keypair locator).  Every
observable action of the script (spawned command, directory change, file
write, console output) is recorded as an `Event` in a trace, and process
termination is an explicit outcome value.
-/

namespace DeployNtt

/-- The partially-built configuration record assembled by `parseArgs`.
In the source this is `Partial<DeploymentConfig>`; a field is `none` while
unassigned (JS `undefined`). -/
structure PConfig where
  projectName : Option String := none
  baseToken : Option String := none
  solanaToken : Option String := none
  solanaPayer : Option String := none
  mode : Option String := none
deriving DecidableEq, Repr

/-- Observable actions of the script: an `execSync` invocation, a
`process.chdir`, a `writeFileSync`, or a console print (`console.log` and
`console.error` both print). -/
inductive Event where
  | exec (cmd : String)
  | chdir (dir : String)
  | writeFile (name : String) (content : String)
  | print (msg : String)
deriving DecidableEq, Repr

/-- The external world the script interacts with: the result of running a
shell command (`.error` models a non-zero exit / thrown `execSync` error,
`.ok` carries the captured stdout), the `existsSync` check, and the list of
names in the working directory (the lines `ls -1` would emit) at the time
the keypair locator runs. -/
structure World where
  run : String → Except String String
  pathExists : String → Bool
  listing : List String

/-- The `rpcEndpoints` field of `DEFAULT_CONFIG`. -/
structure RpcEndpoints where
  Base : String
  Solana : String
deriving DecidableEq, Repr

/-- The shape of the module-level `DEFAULT_CONFIG` constant. -/
structure DefaultConfigT where
  network : String
  mode : String
  rpcEndpoints : RpcEndpoints
deriving DecidableEq, Repr

/-- The module-level `DEFAULT_CONFIG` constant of the script. -/
def DEFAULT_CONFIG : DefaultConfigT :=
  { network := "Testnet"
    mode := "burning"
    rpcEndpoints :=
      { Base := "https://sepolia.base.org"
        Solana := "https://api.devnet.solana.com" } }

/-- The text printed by `printUsage` (the template literal in the source:
it begins with a newline and ends with a newline and two spaces; the `\\`
pairs in the template produce single backslashes). -/
def usageText : String :=
  String.intercalate "\n"
    [ ""
    , "Usage: deploy-ntt [options]"
    , ""
    , "Required:"
    , "    --project-name      Name of the NTT project"
    , "    --base-token       Base chain token address"
    , "    --solana-token     Solana chain token address"
    , "    --solana-payer     Path to Solana payer keypair file"
    , ""
    , "Optional:"
    , "    --mode             Token transfer mode (burning/locking) [default: burning]"
    , "    -h, --help         Show this help message"
    , ""
    , "Example:"
    , "    deploy-ntt --project-name my-token-bridge \\"
    , "              --base-token 0x1234... \\"
    , "              --solana-token TokenkegQfeZyiNwAJbNbGKPFXCWuBvf9Ss623VQ5DA \\"
    , "              --solana-payer ~/.config/solana/id.json \\"
    , "              --mode locking"
    , "  " ]

/-- The diagnostic printed when `--mode` is given a value other than
`burning` or `locking`. -/
def modeErrMsg : String :=
  "Error: mode must be either \x27burning\x27 or \x27locking\x27"

/-- Outcome of the argument-scanning loop of `parseArgs`: either the process
exited (with the console output it printed), or the loop finished with the
accumulated partial configuration.  In the source, every print inside the
loop is immediately followed by `process.exit(1)` (directly or via
`printUsage`), so output only occurs on the exit paths. -/
inductive ScanOutcome where
  | exit (events : List Event) (code : Nat)
  | done (cfg : PConfig)
deriving DecidableEq, Repr

/-- The `for` loop of `parseArgs`.  Each value flag consumes the following
token via `args[++i]`; when the flag is the last token, `args[++i]` is JS
`undefined`, which the source stores into the field (modelled as `none`).
`--mode` validates its value immediately; `-h`/`--help` print usage and
exit; an unknown token prints a diagnostic plus usage and exits. -/
def scanArgs : List String → PConfig → ScanOutcome
  | [], cfg => .done cfg
  | arg :: rest, cfg =>
    if arg = "--project-name" then
      match rest with
      | [] => .done { cfg with projectName := none }
      | v :: rest2 => scanArgs rest2 { cfg with projectName := some v }
    else if arg = "--base-token" then
      match rest with
      | [] => .done { cfg with baseToken := none }
      | v :: rest2 => scanArgs rest2 { cfg with baseToken := some v }
    else if arg = "--solana-token" then
      match rest with
      | [] => .done { cfg with solanaToken := none }
      | v :: rest2 => scanArgs rest2 { cfg with solanaToken := some v }
    else if arg = "--solana-payer" then
      match rest with
      | [] => .done { cfg with solanaPayer := none }
      | v :: rest2 => scanArgs rest2 { cfg with solanaPayer := some v }
    else if arg = "--mode" then
      match rest with
      | [] => .exit [Event.print modeErrMsg] 1
      | v :: rest2 =>
        if v = "burning" ∨ v = "locking" then
          scanArgs rest2 { cfg with mode := some v }
        else
          .exit [Event.print modeErrMsg] 1
    else if arg = "-h" ∨ arg = "--help" then
      .exit [Event.print usageText] 1
    else
      .exit [Event.print ("Unknown option: " ++ arg), Event.print usageText] 1

/-- JS falsiness of a stored optional string field: `undefined` and the
empty string are falsy. -/
def falsyStr : Option String → Bool
  | none => true
  | some s => s = ""

/-- The camelCase → dash-case conversion applied by the missing-parameter
message: `replace(/[A-Z]/g, c => -lowercase(c))`. -/
def dashCase (s : String) : String :=
  s.toList.foldl
    (fun acc c =>
      if c.isUpper then acc ++ "-" ++ (Char.toLower c).toString
      else acc ++ c.toString) ""

/-- The `requiredParams` array of `parseArgs`, in source order, paired with
the field each name denotes. -/
def requiredParams : List (String × (PConfig → Option String)) :=
  [ ("projectName", PConfig.projectName)
  , ("baseToken", PConfig.baseToken)
  , ("solanaToken", PConfig.solanaToken)
  , ("solanaPayer", PConfig.solanaPayer) ]

/-- The first required parameter (in `requiredParams` order) whose stored
value is falsy, if any.  The source loop reports this one and exits. -/
def firstMissing (cfg : PConfig) : Option String :=
  (requiredParams.find? (fun p => falsyStr (p.2 cfg))).map Prod.fst

/-- The diagnostic naming a missing required parameter. -/
def missingMsg (param : String) : String :=
  "Error: Missing required parameter --" ++ dashCase param

/-- Outcome of full argument validation: process exit or a validated
configuration. -/
inductive VOutcome where
  | exit (code : Nat)
  | ok (cfg : PConfig)
deriving DecidableEq, Repr

/-- The validation tail of `parseArgs`: the required-parameter loop (report
the first falsy field, print usage, exit 1) followed by the
`existsSync(config.solanaPayer!)` check. -/
def validateConfig (w : World) (cfg : PConfig) : List Event × VOutcome :=
  match firstMissing cfg with
  | some p => ([Event.print (missingMsg p), Event.print usageText], .exit 1)
  | none =>
    let payer := cfg.solanaPayer.getD ""
    if w.pathExists payer then ([], .ok cfg)
    else ([Event.print ("Error: Solana payer file not found: " ++ payer)], .exit 1)

/-- Function `parseArgs`: scan the argument list, then validate. -/
def parseArgs (w : World) (argv : List String) : List Event × VOutcome :=
  match scanArgs argv {} with
  | .exit ev c => (ev, .exit c)
  | .done cfg => validateConfig w cfg

/-- The five tools probed by `checkPrerequisites`, in source order. -/
def toolsList : List String := ["solana", "spl-token", "anchor", "forge", "ntt"]

/-- The remediation lines printed by `checkPrerequisites` when a probe
fails. -/
def remediationEvents : List Event :=
  [ Event.print "Missing required tools. Please install:"
  , Event.print "- Solana CLI tools (solana, spl-token)"
  , Event.print "- Anchor (https://www.anchor-lang.com/docs/installation)"
  , Event.print "- Foundry (forge) (https://book.getfoundry.sh/getting-started/installation)"
  , Event.print "- NTT CLI (https://wormhole.com/docs/build/contract-integrations/native-token-transfers/deployment-process/install-cli)" ]

/-- The sequence of `execSync(which tool)` probes inside the `try` block of
`checkPrerequisites`: each probe is invoked in order; the first failure
aborts the sequence (returning `false`). -/
def probeTools (w : World) : List String → List Event × Bool
  | [] => ([], true)
  | t :: ts =>
    match w.run ("which " ++ t) with
    | .error _ => ([Event.exec ("which " ++ t)], false)
    | .ok _ =>
      let r := probeTools w ts
      (Event.exec ("which " ++ t) :: r.1, r.2)

/-- Function `checkPrerequisites`: probe the five tools; on the first failure, print
the remediation message and `process.exit(1)` (result `some 1`). -/
def checkPrerequisites (w : World) : List Event × Option Nat :=
  match probeTools w toolsList with
  | (ev, true) => (ev, none)
  | (ev, false) => (ev ++ remediationEvents, some 1)

/-- The characters of a string, lower-cased (the effect of `grep -i` is
modelled by lower-casing the candidate before matching the all-lowercase
pattern). -/
def lowerChars (s : String) : List Char := s.toList.map Char.toLower

/-- The shell command run by `findNttKeypairFile`.  Note: the source writes
the JS string literal with a backslash before the first dot, but `\.` is not
a recognised JS string escape, so the backslash is dropped and grep receives
the pattern with both dots as wildcards. -/
def grepCmd : String := "ls -1 | grep -i \"^ntt.*.json$\""

/-- Whether a directory-entry name matches the grep pattern `^ntt.*.json$`
case-insensitively: the name (lower-cased) starts with `ntt`, ends with
`json`, and has at least one character between (the unescaped `.` wildcard),
i.e. total length at least 8. -/
def grepMatch (name : String) : Bool :=
  "ntt".toList.isPrefixOf (lowerChars name)
    && "json".toList.isSuffixOf (lowerChars name)
    && 8 ≤ (lowerChars name).length

/-- Error message for zero keypair matches (raised either from the
zero-length check inside the `try` or from the `catch` branch that maps
grep exit status 1 to the same message). -/
def notFoundMsg : String := "No NTT keypair file found in current directory"

/-- Error message for more than one keypair match. -/
def multipleMsg : String := "Multiple NTT keypair files found. Please ensure only one exists."

/-- Function `findNttKeypairFile` as a function of the working-directory listing.
When no entry matches, grep exits with status 1, `execSync` throws, and the
`catch` branch rethrows the not-found error.  Otherwise the output is the
matched lines; `trim().split(backslash-n)` recovers exactly the matched
names (every match starts and ends with a non-whitespace character, so the
trim only strips grep's trailing newline), and the length checks pick the
unique name or fail. -/
def findNttKeypairFile (listing : List String) : Except String String :=
  match listing.filter grepMatch with
  | [] => .error notFoundMsg
  | [f] => .ok f
  | _ :: _ :: _ => .error multipleMsg

/-- The `solana-keygen grind` command issued in burning mode. -/
def grindCmd : String := "solana-keygen grind --starts-with ntt:1 --ignore-case"

/-- The `ntt solana token-authority` command for a keypair file. -/
def tokenAuthorityCmd (f : String) : String := "ntt solana token-authority " ++ f

/-- The `spl-token authorize` command reassigning the mint authority. -/
def authorizeCmd (token pda : String) : String :=
  "spl-token authorize " ++ token ++ " mint " ++ pda

/-- JS `s.slice(0, -n)`: drop the last `n` characters (empty result when the
string is no longer than `n`). -/
def sliceDropRight (s : String) (n : Nat) : String :=
  String.mk (s.toList.take (s.toList.length - n))

/-- Function `prepareSolanaDeployment`.  It destructures the raw `mode` field of the
configuration (without applying the default), so the burning-mode block runs
only when `mode` was explicitly set to `burning`.  The second component is
`some err` when the async function rejects with `err`. -/
def prepareSolanaDeployment (cfg : PConfig) (w : World) : List Event × Option String :=
  if cfg.mode = some "burning" then
    let ev0 := [Event.print "Generating program keypair for burning mode...", Event.exec grindCmd]
    match w.run grindCmd with
    | .error e => (ev0, some e)
    | .ok _ =>
      let ev1 := ev0 ++ [Event.exec grepCmd]
      match findNttKeypairFile w.listing with
      | .error e => (ev1, some e)
      | .ok f =>
        let ev2 := ev1 ++ [Event.print ("Program keypair file: " ++ f), Event.exec (tokenAuthorityCmd f)]
        match w.run (tokenAuthorityCmd f) with
        | .error e => (ev2, some e)
        | .ok out =>
          let pda := sliceDropRight out.trim 4
          let cmd := authorizeCmd (cfg.solanaToken.getD "") pda
          let ev3 := ev2 ++ [Event.print "Setting mint authority...", Event.exec cmd]
          match w.run cmd with
          | .error e => (ev3, some e)
          | .ok _ => (ev3, none)
  else ([], none)

mutual

/-- A JSON value (only the constructors the script builds). `JsonFields` is
a bespoke list so the serializer below is structurally recursive. -/
inductive Json where
  | str (s : String)
  | obj (fields : JsonFields)

/-- The field list of a JSON object. -/
inductive JsonFields where
  | nil
  | cons (key : String) (val : Json) (rest : JsonFields)

end

/-- Minimal JSON string escaping (sufficient for the strings the script
serializes: quote, backslash and newline). -/
def jsonEscape (s : String) : String :=
  s.toList.foldl
    (fun acc c =>
      if c = '"' then acc ++ "\\\""
      else if c = '\\' then acc ++ "\\\\"
      else if c = '\n' then acc ++ "\\n"
      else acc ++ c.toString) ""

/-- A JSON string literal. -/
def quoteJson (s : String) : String := "\"" ++ jsonEscape s ++ "\""

/-- Whitespace of `n` spaces. -/
def spaces (n : Nat) : String := String.mk (List.replicate n ' ')

mutual

/-- Serialization following `JSON.stringify(v, null, 2)` at indentation level `ind`. -/
def jsonStringify : Nat → Json → String
  | _, .str s => quoteJson s
  | _, .obj .nil => "\x7b\x7d"
  | ind, .obj fs =>
    "\x7b\n" ++ String.intercalate ",\n" (jsonFieldLines ind fs) ++ "\n" ++ spaces ind ++ "\x7d"

/-- The serialized lines of an object's fields at enclosing indentation
`ind`. -/
def jsonFieldLines : Nat → JsonFields → List String
  | _, .nil => []
  | ind, .cons k v rest =>
    (spaces (ind + 2) ++ quoteJson k ++ ": " ++ jsonStringify (ind + 2) v)
      :: jsonFieldLines ind rest

end

/-- The `overrides` object built by `deployNTT` from `DEFAULT_CONFIG`. -/
def overrides : Json :=
  .obj (.cons "chains"
    (.obj (.cons "Base" (.obj (.cons "rpc" (.str DEFAULT_CONFIG.rpcEndpoints.Base) .nil))
      (.cons "Solana" (.obj (.cons "rpc" (.str DEFAULT_CONFIG.rpcEndpoints.Solana) .nil))
        .nil)))
    .nil)

/-- The exact text written to `overrides.json`:
`JSON.stringify(overrides, null, 2)`. -/
def overridesContent : String := jsonStringify 0 overrides

/-- Command `ntt new`. -/
def newCmd (p : String) : String := "ntt new " ++ p

/-- Command `ntt init` for the fixed network. -/
def initCmd : String := "ntt init " ++ DEFAULT_CONFIG.network

/-- Command `ntt add-chain Solana`. -/
def addSolanaCmd (token mode payer : String) : String :=
  "ntt add-chain Solana --token " ++ token ++ " --mode " ++ mode ++ " --latest --payer " ++ payer

/-- Command `ntt add-chain Base`. -/
def addBaseCmd (token mode : String) : String :=
  "ntt add-chain Base --token " ++ token ++ " --mode " ++ mode ++ " --latest --skip-verify"

/-- Command `ntt push`. -/
def pushCmd (payer : String) : String := "ntt push --yes --payer " ++ payer

/-- Outcome of the async `deployNTT` function: `exited` models a
`process.exit` performed inside it, `rejected` a promise rejection (a thrown
`execSync` error), `ok` normal completion. -/
inductive DeployOutcome where
  | exited (code : Nat)
  | rejected (err : String)
  | ok
deriving DecidableEq, Repr

/-- The body of `deployNTT` after the prerequisite check: the fixed
deployment sequence.  The destructuring in `deployNTT` applies the default
`mode = DEFAULT_CONFIG.mode`, which is used for both `add-chain` commands
(but `prepareSolanaDeployment` receives the raw config). -/
def deployBody (cfg : PConfig) (w : World) : List Event × DeployOutcome :=
  let projectName := cfg.projectName.getD ""
  let baseToken := cfg.baseToken.getD ""
  let solanaToken := cfg.solanaToken.getD ""
  let solanaPayer := cfg.solanaPayer.getD ""
  let mode := cfg.mode.getD DEFAULT_CONFIG.mode
  id (
    let ev1 := [Event.print ("Creating new NTT project: " ++ projectName), Event.exec (newCmd projectName)]
    match w.run (newCmd projectName) with
    | .error e => (ev1, .rejected e)
    | .ok _ =>
      let ev2 := ev1 ++ [Event.chdir projectName, Event.print ("Initializing project for " ++ DEFAULT_CONFIG.network), Event.exec initCmd]
      match w.run initCmd with
      | .error e => (ev2, .rejected e)
      | .ok _ =>
        let ev3 := ev2 ++ [Event.writeFile "overrides.json" overridesContent]
        match prepareSolanaDeployment cfg w with
        | (pev, some e) => (ev3 ++ pev, .rejected e)
        | (pev, none) =>
          let cmdS := addSolanaCmd solanaToken mode solanaPayer
          let ev4 := ev3 ++ pev ++ [Event.print "Adding Solana chain...", Event.exec cmdS]
          match w.run cmdS with
          | .error e => (ev4, .rejected e)
          | .ok _ =>
            let cmdB := addBaseCmd baseToken mode
            let ev5 := ev4 ++ [Event.print "Adding Base chain...", Event.exec cmdB]
            match w.run cmdB with
            | .error e => (ev5, .rejected e)
            | .ok _ =>
              let ev6 := ev5 ++ [Event.print "Pushing configuration...", Event.exec (pushCmd solanaPayer)]
              match w.run (pushCmd solanaPayer) with
              | .error e => (ev6, .rejected e)
              | .ok _ =>
                let ev7 := ev6 ++ [Event.print "Deployment complete! Configuration saved in deployment.json", Event.exec "cat deployment.json"]
                match w.run "cat deployment.json" with
                | .error e => (ev7, .rejected e)
                | .ok out => (ev7 ++ [Event.print out], .ok) )

/-- Function `deployNTT`: the prerequisite check followed by the deployment
sequence; a `process.exit` inside the check terminates immediately. -/
def deployNTT (cfg : PConfig) (w : World) : List Event × DeployOutcome :=
  match checkPrerequisites w with
  | (ev, some c) => (ev, .exited c)
  | (ev0, none) =>
    let r := deployBody cfg w
    (ev0 ++ r.1, r.2)

/-- The top-level execution: `try` around `parseArgs` and the call
`deployNTT(config).catch(console.error)`.  A `process.exit` performed inside
either function terminates with that code.  A rejection of the async
`deployNTT` promise is handled by the `.catch(console.error)` handler —
the error is printed and the process then exits normally with status 0 (the
outer `try`/`catch` never observes an asynchronous rejection). -/
def main (argv : List String) (w : World) : Nat × List Event :=
  match parseArgs w argv with
  | (ev, .exit c) => (c, ev)
  | (ev, .ok cfg) =>
    match deployNTT cfg w with
    | (dev, .exited c) => (c, ev ++ dev)
    | (dev, .rejected e) => (0, ev ++ dev ++ [Event.print e])
    | (dev, .ok) => (0, ev ++ dev)

end DeployNtt


namespace DeployNtt

/-! ### Concrete inputs used by the theorems -/

/-- The end-to-end scenario argument list of the spec (with `--mode`
omitted). -/
def demoArgs : List String :=
  [ "--project-name", "demo"
  , "--base-token", "0xAAA"
  , "--solana-token", "TokenkegQfeZyiNwAJbNbGKPFXCWuBvf9Ss623VQ5DA"
  , "--solana-payer", "./payer.json" ]

/-- A world in which every external command succeeds (with empty output),
every path exists, and the working directory holds exactly one keypair
file. -/
def allOkWorld : World :=
  { run := fun _ => .ok ""
    pathExists := fun _ => true
    listing := ["ntt.json"] }

/-- A world in which the five tool probes succeed but `ntt new demo` exits
non-zero; every other command succeeds and the payer file exists. -/
def nttNewFailWorld : World :=
  { run := fun c =>
      if c = newCmd "demo" then .error "Command failed: ntt new demo" else .ok ""
    pathExists := fun _ => true
    listing := [] }

/-- An exec event belonging to the burning-mode preparation step: keypair
generation, keypair location (the grep pipeline), token-authority
derivation, or the mint-authority reassignment. -/
def burningPrepEvent : Event → Bool
  | .exec c =>
    c = grindCmd || c = grepCmd
      || "ntt solana token-authority".toList.isPrefixOf c.toList
      || "spl-token".toList.isPrefixOf c.toList
  | _ => false

/-! ### Claims -/

/-- C1: for the spec's end-to-end argument list with `--mode` omitted and
every external command succeeding, the run exits 0 and performs the
creation, init, overrides write, both add-chain commands (mode `burning`)
and the push — but the burning-mode preparation steps the claim requires
(keypair generation and location, authority derivation, mint-authority
reassignment) are never issued, because `prepareSolanaDeployment` compares
the undefaulted `mode` field against `burning`.  This evaluates the code at
the claim's input and shows the claimed sequence is not produced. -/
theorem c1_default_mode_skips_burning_prep :
    (main demoArgs allOkWorld).1 = 0
      ∧ (main demoArgs allOkWorld).2.filter burningPrepEvent = []
      ∧ Event.exec (newCmd "demo") ∈ (main demoArgs allOkWorld).2
      ∧ Event.exec initCmd ∈ (main demoArgs allOkWorld).2
      ∧ Event.writeFile "overrides.json" overridesContent ∈ (main demoArgs allOkWorld).2
      ∧ Event.exec (addSolanaCmd "TokenkegQfeZyiNwAJbNbGKPFXCWuBvf9Ss623VQ5DA" "burning" "./payer.json")
          ∈ (main demoArgs allOkWorld).2
      ∧ Event.exec (addBaseCmd "0xAAA" "burning") ∈ (main demoArgs allOkWorld).2
      ∧ Event.exec (pushCmd "./payer.json") ∈ (main demoArgs allOkWorld).2 := by
  decide

/-- C2: when a step of the deployment sequence fails (`ntt new demo` exits
non-zero), the rejection of the async `deployNTT` promise is handled by
`.catch(console.error)`: the error is printed, but the process exits with
SUCCESS status 0 — contradicting the claim that every execution error
terminates the process with a non-zero status. -/
theorem c2_failed_step_exits_with_success_status :
    (main demoArgs nttNewFailWorld).1 = 0
      ∧ Event.exec (newCmd "demo") ∈ (main demoArgs nttNewFailWorld).2
      ∧ Event.print "Command failed: ntt new demo" ∈ (main demoArgs nttNewFailWorld).2 := by
  decide

/-- The keypair-name pattern exactly as claim C8 states it: the name starts
with `ntt` and ends with `.json` — dot included — case-insensitively.
Stated from the claim's words, for comparison with `grepMatch`, which
embeds the pattern the code actually sends to grep. -/
def specKeypairPattern (name : String) : Bool :=
  "ntt".toList.isPrefixOf (lowerChars name)
    && ".json".toList.isSuffixOf (lowerChars name)

/-- C8: the locator's actual filter accepts the name `ntt-json`, which does
not end with `.json`, so the claimed if-and-only-if fails.  The source
writes the grep pattern in a JS string as backslash-dot-json, but JS string
literals drop the backslash of the unrecognised escape, so grep receives
the dot as a wildcard. -/
theorem c8_grep_pattern_accepts_name_without_dot :
    grepMatch "ntt-json" = true
      ∧ specKeypairPattern "ntt-json" = false
      ∧ (findNttKeypairFile ["ntt-json"]).toOption = some "ntt-json"
      ∧ grepMatch "ntt.json" = true
      ∧ specKeypairPattern "ntt.json" = true := by
  decide

end DeployNtt

namespace DeployNtt

/-- The configuration produced by parsing `demoArgs` (mode omitted). -/
def demoCfgNoMode : PConfig :=
  { projectName := some "demo"
    baseToken := some "0xAAA"
    solanaToken := some "TokenkegQfeZyiNwAJbNbGKPFXCWuBvf9Ss623VQ5DA"
    solanaPayer := some "./payer.json"
    mode := none }

/-- C3: whenever the `mode` field is unset (the `--mode` flag was omitted)
and every external command succeeds, `deployNTT` runs the full sequence
with both `add-chain` commands at `--mode burning` (the default applied at
destructuring), yet issues none of the burning-mode preparation events:
`prepareSolanaDeployment` compares the raw, undefaulted field against
`burning` and skips the whole block. -/
theorem c3_omitted_mode_burning_addchain_without_prep
    (cfg : PConfig) (w : World) (out : String → String)
    (hm : cfg.mode = none) (hr : ∀ c, w.run c = .ok (out c)) :
    deployNTT cfg w =
      ( [ Event.exec "which solana", Event.exec "which spl-token", Event.exec "which anchor"
        , Event.exec "which forge", Event.exec "which ntt"
        , Event.print ("Creating new NTT project: " ++ cfg.projectName.getD "")
        , Event.exec (newCmd (cfg.projectName.getD ""))
        , Event.chdir (cfg.projectName.getD "")
        , Event.print ("Initializing project for " ++ DEFAULT_CONFIG.network)
        , Event.exec initCmd
        , Event.writeFile "overrides.json" overridesContent
        , Event.print "Adding Solana chain..."
        , Event.exec (addSolanaCmd (cfg.solanaToken.getD "") "burning" (cfg.solanaPayer.getD ""))
        , Event.print "Adding Base chain..."
        , Event.exec (addBaseCmd (cfg.baseToken.getD "") "burning")
        , Event.print "Pushing configuration..."
        , Event.exec (pushCmd (cfg.solanaPayer.getD ""))
        , Event.print "Deployment complete! Configuration saved in deployment.json"
        , Event.exec "cat deployment.json"
        , Event.print (out "cat deployment.json") ]
      , DeployOutcome.ok ) := by
  simp [deployNTT, deployBody, checkPrerequisites, probeTools, toolsList,
    prepareSolanaDeployment, hm, hr, DEFAULT_CONFIG]

/-- Witness for C3 at the spec's end-to-end configuration and an
all-succeeding world. -/
theorem c3_witness :
    (deployNTT demoCfgNoMode allOkWorld).2 = DeployOutcome.ok
      ∧ Event.exec (addBaseCmd "0xAAA" "burning") ∈ (deployNTT demoCfgNoMode allOkWorld).1 := by
  have h := c3_omitted_mode_burning_addchain_without_prep demoCfgNoMode allOkWorld
    (fun _ => "") rfl (fun _ => rfl)
  rw [h]
  exact ⟨rfl, by decide⟩

end DeployNtt

namespace DeployNtt

/-- Every event emitted by the probe sequence is a `which` probe for one of
the listed tools. -/
theorem probeTools_events (w : World) :
    ∀ ts, ∀ e ∈ (probeTools w ts).1, ∃ t ∈ ts, e = Event.exec ("which " ++ t) := by
  intro ts
  induction ts with
  | nil => simp [probeTools]
  | cons t ts ih =>
    intro e he
    cases hr : w.run ("which " ++ t) with
    | error m =>
      rw [probeTools, hr] at he
      simp at he
      exact ⟨t, by simp, he⟩
    | ok o =>
      rw [probeTools, hr] at he
      simp at he
      rcases he with h | h
      · exact ⟨t, by simp, h⟩
      · rcases ih e h with ⟨u, hu, he2⟩
        exact ⟨u, by simp [hu], he2⟩

/-- If some listed tool's probe fails, the probe sequence reports failure. -/
theorem probeTools_fail (w : World) :
    ∀ ts, (∃ t ∈ ts, ∃ m, w.run ("which " ++ t) = .error m) →
      (probeTools w ts).2 = false := by
  intro ts
  induction ts with
  | nil => simp
  | cons t ts ih =>
    rintro ⟨u, hu, m, hm⟩
    cases hr : w.run ("which " ++ t) with
    | error m2 => simp [probeTools, hr]
    | ok o =>
      simp [probeTools, hr]
      apply ih
      rcases List.mem_cons.mp hu with rfl | h
      · rw [hm] at hr; cases hr
      · exact ⟨u, h, m, hm⟩

/-- If every listed probe succeeds, the probe sequence emits exactly the
probe events and reports success. -/
theorem probeTools_ok (w : World) :
    ∀ ts, (∀ t ∈ ts, ∃ o, w.run ("which " ++ t) = .ok o) →
      probeTools w ts = (ts.map (fun t => Event.exec ("which " ++ t)), true) := by
  intro ts
  induction ts with
  | nil => simp [probeTools]
  | cons t ts ih =>
    intro h
    rcases h t (by simp) with ⟨o, ho⟩
    have hrest := ih (fun u hu => h u (by simp [hu]))
    simp [probeTools, ho, hrest]

/-- Events of `parseArgs` on the success path are empty: the scan loop
prints only on exit paths, and the validation prints only before an exit. -/
theorem parseArgs_ok_events (w : World) (argv : List String) (ev : List Event)
    (cfg : PConfig) (h : parseArgs w argv = (ev, .ok cfg)) : ev = [] := by
  unfold parseArgs at h
  split at h
  · simp at h
  · unfold validateConfig at h
    split at h
    · simp at h
    · try dsimp only at h
      split at h
      · simp at h
        exact h.1
      · simp at h

/-- C4: if any of the five `which` probes fails, `deployNTT` exits with
status 1 having printed the remediation message, and every command it ever
invoked is a `which` probe — no deployment command is issued (and a full
run whose parsing succeeded exits 1 with only probe commands in its trace).
If all probes succeed, the trace begins with exactly the five probe events,
so every deployment command comes after them. -/
theorem c4_prerequisite_gate (cfg : PConfig) (w : World) :
    ((∃ t ∈ toolsList, ∃ m, w.run ("which " ++ t) = .error m) →
        (deployNTT cfg w).2 = .exited 1
          ∧ (∀ e ∈ remediationEvents, e ∈ (deployNTT cfg w).1)
          ∧ (∀ c, Event.exec c ∈ (deployNTT cfg w).1 → ∃ t ∈ toolsList, c = "which " ++ t)
          ∧ (∀ argv ev, parseArgs w argv = (ev, .ok cfg) →
              (main argv w).1 = 1
                ∧ ∀ c, Event.exec c ∈ (main argv w).2 → ∃ t ∈ toolsList, c = "which " ++ t))
      ∧ ((∀ t ∈ toolsList, ∃ o, w.run ("which " ++ t) = .ok o) →
          ∃ r, (deployNTT cfg w).1
            = toolsList.map (fun t => Event.exec ("which " ++ t)) ++ r) := by
  constructor
  · intro hfail
    have h2 : (probeTools w toolsList).2 = false := probeTools_fail w toolsList hfail
    have hc : checkPrerequisites w = ((probeTools w toolsList).1 ++ remediationEvents, some 1) := by
      unfold checkPrerequisites
      rcases hp : probeTools w toolsList with ⟨pev, b⟩
      rw [hp] at h2
      simp at h2
      rw [h2]
    have hd : deployNTT cfg w = ((probeTools w toolsList).1 ++ remediationEvents, .exited 1) := by
      unfold deployNTT
      rw [hc]
    refine ⟨by rw [hd], ?_, ?_, ?_⟩
    · intro e he
      rw [hd]
      exact List.mem_append_right _ he
    · intro c hcmem
      rw [hd] at hcmem
      rcases List.mem_append.mp hcmem with h | h
      · rcases probeTools_events w toolsList _ h with ⟨t, ht, he⟩
        exact ⟨t, ht, by injection he⟩
      · simp [remediationEvents] at h
    · intro argv ev hparse
      have hev : ev = [] := parseArgs_ok_events w argv ev cfg hparse
      subst hev
      have hmain : main argv w = (1, (probeTools w toolsList).1 ++ remediationEvents) := by
        unfold main
        rw [hparse]
        simp [hd]
      refine ⟨by rw [hmain], ?_⟩
      intro c hcmem
      rw [hmain] at hcmem
      rcases List.mem_append.mp hcmem with h | h
      · rcases probeTools_events w toolsList _ h with ⟨t, ht, he⟩
        exact ⟨t, ht, by injection he⟩
      · simp [remediationEvents] at h
  · intro hok
    have hp := probeTools_ok w toolsList hok
    have hc : checkPrerequisites w
        = (toolsList.map (fun t => Event.exec ("which " ++ t)), none) := by
      unfold checkPrerequisites
      rw [hp]
    refine ⟨(deployBody cfg w).1, ?_⟩
    unfold deployNTT
    rw [hc]

/-- A world in which `forge` is missing and everything else succeeds. -/
def missingForgeWorld : World :=
  { run := fun c => if c = "which forge" then .error "not found" else .ok ""
    pathExists := fun _ => true
    listing := [] }

/-- Witness for C4: with `forge` missing, `deployNTT` exits 1, prints the
remediation header, and issues no deployment command such as `ntt new`. -/
theorem c4_witness :
    (deployNTT demoCfgNoMode missingForgeWorld).2 = .exited 1
      ∧ Event.print "Missing required tools. Please install:"
          ∈ (deployNTT demoCfgNoMode missingForgeWorld).1
      ∧ Event.exec (newCmd "demo") ∉ (deployNTT demoCfgNoMode missingForgeWorld).1 := by
  have h := (c4_prerequisite_gate demoCfgNoMode missingForgeWorld).1
    ⟨"forge", by decide, "not found", rfl⟩
  refine ⟨h.1, h.2.1 _ (by simp [remediationEvents]), ?_⟩
  intro hmem
  rcases h.2.2.1 _ hmem with ⟨t, ht, he⟩
  simp [toolsList] at ht
  rcases ht with rfl | rfl | rfl | rfl | rfl <;> exact absurd he (by decide)

end DeployNtt

namespace DeployNtt

/-- C5: during burning-mode orchestration (once the grind step has
succeeded), the keypair locator demands exactly one match: zero matches
reject the run with the not-found message and two or more matches reject it
with the distinct multiple-files message, and in both cases the only
commands ever issued by the preparation step are the keypair generation and
the locating pipeline — the `spl-token` mint-authority reassignment (and
the token-authority query) never executes. -/
theorem c5_keypair_locator_requires_exactly_one
    (cfg : PConfig) (w : World) (g : String)
    (hm : cfg.mode = some "burning") (hg : w.run grindCmd = .ok g) :
    (w.listing.filter grepMatch = [] →
        (prepareSolanaDeployment cfg w).2 = some notFoundMsg
          ∧ ∀ c, Event.exec c ∈ (prepareSolanaDeployment cfg w).1 →
              c = grindCmd ∨ c = grepCmd)
      ∧ (2 ≤ (w.listing.filter grepMatch).length →
        (prepareSolanaDeployment cfg w).2 = some multipleMsg
          ∧ ∀ c, Event.exec c ∈ (prepareSolanaDeployment cfg w).1 →
              c = grindCmd ∨ c = grepCmd) := by
  constructor
  · intro hnil
    have hf : findNttKeypairFile w.listing = .error notFoundMsg := by
      unfold findNttKeypairFile
      rw [hnil]
    have hp : prepareSolanaDeployment cfg w
        = ([ Event.print "Generating program keypair for burning mode..."
           , Event.exec grindCmd, Event.exec grepCmd], some notFoundMsg) := by
      unfold prepareSolanaDeployment
      rw [hm]
      simp [hg, hf]
    rw [hp]
    refine ⟨rfl, ?_⟩
    intro c hc
    simp at hc
    exact hc
  · intro hlen
    rcases hl : w.listing.filter grepMatch with _ | ⟨a, _ | ⟨b, l⟩⟩
    · rw [hl] at hlen; simp at hlen
    · rw [hl] at hlen; simp at hlen
    · have hf : findNttKeypairFile w.listing = .error multipleMsg := by
        unfold findNttKeypairFile
        rw [hl]
      have hp : prepareSolanaDeployment cfg w
          = ([ Event.print "Generating program keypair for burning mode..."
             , Event.exec grindCmd, Event.exec grepCmd], some multipleMsg) := by
        unfold prepareSolanaDeployment
        rw [hm]
        simp [hg, hf]
      rw [hp]
      refine ⟨rfl, ?_⟩
      intro c hc
      simp at hc
      exact hc

/-- The end-to-end configuration with `--mode burning` given explicitly. -/
def burnCfg : PConfig :=
  { demoCfgNoMode with mode := some "burning" }

/-- A world whose working directory holds no keypair file (every command
succeeds). -/
def emptyListingWorld : World :=
  { run := fun _ => .ok "GRIND"
    pathExists := fun _ => true
    listing := [] }

/-- Witness for C5: with zero matching files, preparation rejects with the
not-found message and the mint-authority reassignment command is absent. -/
theorem c5_witness :
    (prepareSolanaDeployment burnCfg emptyListingWorld).2 = some notFoundMsg
      ∧ Event.exec (authorizeCmd "TokenkegQfeZyiNwAJbNbGKPFXCWuBvf9Ss623VQ5DA" "")
          ∉ (prepareSolanaDeployment burnCfg emptyListingWorld).1 := by
  have h := (c5_keypair_locator_requires_exactly_one burnCfg emptyListingWorld
    "GRIND" rfl rfl).1 rfl
  refine ⟨h.1, fun hmem => ?_⟩
  rcases h.2 _ hmem with h1 | h1 <;> exact absurd h1 (by decide)

end DeployNtt

namespace DeployNtt

/-- When the scan loop completes and some required field is falsy, the run
prints the report for the first such field plus the usage text and exits
with status 1, invoking nothing external. -/
theorem main_reports_first_missing (argv : List String) (w : World)
    (cfg : PConfig) (p : String)
    (hs : scanArgs argv {} = .done cfg) (hm : firstMissing cfg = some p) :
    main argv w = (1, [Event.print (missingMsg p), Event.print usageText]) := by
  unfold main parseArgs
  rw [hs]
  dsimp only
  unfold validateConfig
  rw [hm]

set_option maxRecDepth 4096 in
/-- C6 counterexample: for the argument list `-h` every required flag is
missing, yet the run prints only the usage text — the first missing field
(`--project-name`) is never reported, refuting the claim as stated. -/
theorem c6_counterexample :
    main ["-h"] allOkWorld = (1, [Event.print usageText])
      ∧ Event.print (missingMsg "projectName") ∉ (main ["-h"] allOkWorld).2 := by
  decide

/-- C6 amended: for every argument list that the scan loop processes to
completion (no help flag, unknown option or invalid `--mode` value at a
scanned position), if some required field ends up unset or empty then the
run reports exactly the first such field in dash-cased form, prints usage,
and terminates with failure status having invoked no external command. -/
theorem c6_amended_first_missing_reported (argv : List String) (w : World)
    (cfg : PConfig) (p : String)
    (hs : scanArgs argv {} = .done cfg) (hm : firstMissing cfg = some p) :
    main argv w = (1, [Event.print (missingMsg p), Event.print usageText]) :=
  main_reports_first_missing argv w cfg p hs hm

/-- Witness for the amended C6: only `--base-token` supplied; the first
missing field `--project-name` is reported and nothing is executed. -/
theorem c6_amended_witness :
    main ["--base-token", "b"] allOkWorld
      = (1, [Event.print (missingMsg "projectName"), Event.print usageText]) :=
  c6_amended_first_missing_reported ["--base-token", "b"] allOkWorld
    { baseToken := some "b" } "projectName" rfl rfl

end DeployNtt

namespace DeployNtt

set_option maxRecDepth 4096 in
/-- C9 counterexample: the argument list `--mode x -h` contains `-h`, but
the invalid `--mode` value is scanned first: the run prints only the mode
diagnostic and never prints the usage text, refuting the claim that a help
flag anywhere always produces the usage printout. -/
theorem c9_counterexample :
    main ["--mode", "x", "-h"] allOkWorld = (1, [Event.print modeErrMsg])
      ∧ Event.print usageText ∉ (main ["--mode", "x", "-h"] allOkWorld).2 := by
  decide

/-- The four required value flags. -/
inductive ReqFlag where
  | projectName
  | baseToken
  | solanaToken
  | solanaPayer
deriving DecidableEq, Repr

/-- The command-line token of a required flag. -/
def flagToken : ReqFlag → String
  | .projectName => "--project-name"
  | .baseToken => "--base-token"
  | .solanaToken => "--solana-token"
  | .solanaPayer => "--solana-payer"

/-- Store a value into the field a required flag denotes. -/
def setFlag : ReqFlag → Option String → PConfig → PConfig
  | .projectName, v, cfg => { cfg with projectName := v }
  | .baseToken, v, cfg => { cfg with baseToken := v }
  | .solanaToken, v, cfg => { cfg with solanaToken := v }
  | .solanaPayer, v, cfg => { cfg with solanaPayer := v }

/-- Read the field a required flag denotes. -/
def getFlag : ReqFlag → PConfig → Option String
  | .projectName, cfg => cfg.projectName
  | .baseToken, cfg => cfg.baseToken
  | .solanaToken, cfg => cfg.solanaToken
  | .solanaPayer, cfg => cfg.solanaPayer

/-- The scan loop consumes the token list completely, transforming the
partial configuration from `cfg` to `cfg2` without hitting any exit path:
every required flag is followed by its value inside the list, every
`--mode` value is valid, and no help flag or unknown token occurs at a
scanned position. -/
inductive ScansTo : List String → PConfig → PConfig → Prop
  | nil (cfg : PConfig) : ScansTo [] cfg cfg
  | flag (f : ReqFlag) (v : String) (rest : List String) (cfg cfg2 : PConfig) :
      ScansTo rest (setFlag f (some v) cfg) cfg2 →
      ScansTo (flagToken f :: v :: rest) cfg cfg2
  | mode (v : String) (rest : List String) (cfg cfg2 : PConfig) :
      (v = "burning" ∨ v = "locking") →
      ScansTo rest { cfg with mode := some v } cfg2 →
      ScansTo ("--mode" :: v :: rest) cfg cfg2

/-- One scan step over a required flag followed by its value. -/
theorem scanArgs_flag_cons (f : ReqFlag) (v : String) (rest : List String)
    (cfg : PConfig) :
    scanArgs (flagToken f :: v :: rest) cfg = scanArgs rest (setFlag f (some v) cfg) := by
  cases f <;> (rw [scanArgs.eq_def]; simp [flagToken, setFlag])

/-- One scan step over `--mode` with a valid value. -/
theorem scanArgs_mode_cons (v : String) (rest : List String) (cfg : PConfig)
    (hv : v = "burning" ∨ v = "locking") :
    scanArgs ("--mode" :: v :: rest) cfg = scanArgs rest { cfg with mode := some v } := by
  rcases hv with rfl | rfl <;> (rw [scanArgs.eq_def]; simp)

/-- A help flag at a scanned position prints usage and exits 1. -/
theorem scanArgs_help_cons (a : String) (rest : List String) (cfg : PConfig)
    (ha : a = "-h" ∨ a = "--help") :
    scanArgs (a :: rest) cfg = .exit [Event.print usageText] 1 := by
  rcases ha with rfl | rfl <;> (rw [scanArgs.eq_def]; simp)

/-- A cleanly-scanned prefix composes: scanning `p ++ rest` first performs
the transformation of `p` and then continues with `rest`. -/
theorem scansTo_append (p : List String) (cfg cfg2 : PConfig)
    (hp : ScansTo p cfg cfg2) :
    ∀ rest, scanArgs (p ++ rest) cfg = scanArgs rest cfg2 := by
  induction hp with
  | nil cfg => intro rest; rfl
  | flag f v r cfg cfg2 hr ih =>
    intro rest
    rw [List.cons_append, List.cons_append, scanArgs_flag_cons]
    exact ih rest
  | mode v r cfg cfg2 hv hr ih =>
    intro rest
    rw [List.cons_append, List.cons_append, scanArgs_mode_cons _ _ _ hv]
    exact ih rest

/-- C9 amended: for every argument list made of a cleanly-scanned prefix
(each value flag paired with its value, valid `--mode` values, no earlier
exit) followed by `-h` or `--help` and arbitrary further tokens, the
program prints the usage text and terminates with failure status 1, and no
external command is invoked. -/
theorem c9_amended_help_prints_usage (p : List String) (cfg2 : PConfig)
    (h : String) (s : List String) (w : World)
    (hh : h = "-h" ∨ h = "--help") (hp : ScansTo p {} cfg2) :
    main (p ++ h :: s) w = (1, [Event.print usageText]) := by
  have hscan : scanArgs (p ++ h :: s) {} = .exit [Event.print usageText] 1 := by
    rw [scansTo_append p {} cfg2 hp (h :: s)]
    exact scanArgs_help_cons h s cfg2 hh
  unfold main parseArgs
  rw [hscan]

/-- Witness for the amended C9: `--project-name demo -h` prints usage and
exits 1 with no external command. -/
theorem c9_amended_witness :
    main ["--project-name", "demo", "-h"] allOkWorld = (1, [Event.print usageText]) :=
  c9_amended_help_prints_usage ["--project-name", "demo"]
    { projectName := some "demo" } "-h" [] allOkWorld (Or.inl rfl)
    (ScansTo.flag .projectName "demo" [] {} _ (ScansTo.nil _))

end DeployNtt

namespace DeployNtt

/-- A falsy required field forces the required-parameter loop to report
some parameter. -/
theorem firstMissing_isSome_of_falsy (cfg : PConfig) (f : ReqFlag)
    (hf : falsyStr (getFlag f cfg) = true) : ∃ p, firstMissing cfg = some p := by
  cases f <;>
    cases h1 : falsyStr cfg.projectName <;>
    cases h2 : falsyStr cfg.baseToken <;>
    cases h3 : falsyStr cfg.solanaToken <;>
    cases h4 : falsyStr cfg.solanaPayer <;>
    simp_all [firstMissing, requiredParams, List.find?, getFlag]

/-- Storing the empty string in a required field validates exactly like
leaving the field unset. -/
theorem validateConfig_empty_eq_unset (w : World) (cfg : PConfig) (f : ReqFlag)
    (he : getFlag f cfg = some "") :
    validateConfig w cfg = validateConfig w (setFlag f none cfg) := by
  cases f <;>
    cases h1 : falsyStr cfg.projectName <;>
    cases h2 : falsyStr cfg.baseToken <;>
    cases h3 : falsyStr cfg.solanaToken <;>
    cases h4 : falsyStr cfg.solanaPayer <;>
    simp_all [validateConfig, firstMissing, requiredParams, List.find?, getFlag,
      setFlag, falsyStr]

/-- C10: a required flag whose supplied value is the empty string is
treated exactly like an absent flag: validation of the configuration is
unchanged by replacing the stored empty string with `undefined`, and the
run reports a missing required parameter, printing only the report and the
usage text (no external command) and exiting with status 1. -/
theorem c10_empty_value_treated_as_missing (argv : List String) (w : World)
    (cfg : PConfig) (f : ReqFlag)
    (hs : scanArgs argv {} = .done cfg) (he : getFlag f cfg = some "") :
    (main argv w).1 = 1
      ∧ (∃ p, main argv w = (1, [Event.print (missingMsg p), Event.print usageText]))
      ∧ validateConfig w cfg = validateConfig w (setFlag f none cfg) := by
  have hfal : falsyStr (getFlag f cfg) = true := by rw [he]; decide
  rcases firstMissing_isSome_of_falsy cfg f hfal with ⟨p, hm⟩
  have hmain := main_reports_first_missing argv w cfg p hs hm
  exact ⟨by rw [hmain], ⟨p, hmain⟩, validateConfig_empty_eq_unset w cfg f he⟩

/-- The configuration parsed from a list supplying every flag but with an
empty `--project-name` value. -/
def cfgEmptyProj : PConfig :=
  { projectName := some ""
    baseToken := some "b"
    solanaToken := some "s2"
    solanaPayer := some "p2" }

/-- Witness for C10: an empty `--project-name` value makes the run exit 1,
and validation equals that of the configuration with the field unset. -/
theorem c10_witness :
    (main ["--project-name", "", "--base-token", "b", "--solana-token", "s2",
        "--solana-payer", "p2"] allOkWorld).1 = 1
      ∧ validateConfig allOkWorld cfgEmptyProj
          = validateConfig allOkWorld (setFlag .projectName none cfgEmptyProj) := by
  have h := c10_empty_value_treated_as_missing
    ["--project-name", "", "--base-token", "b", "--solana-token", "s2", "--solana-payer", "p2"]
    allOkWorld cfgEmptyProj .projectName rfl rfl
  exact ⟨h.1, h.2.2⟩

end DeployNtt

namespace DeployNtt

/-- The burning-mode preparation step never writes a file. -/
theorem prepareSolana_no_writeFile (cfg : PConfig) (w : World) (n c : String) :
    Event.writeFile n c ∉ (prepareSolanaDeployment cfg w).1 := by
  intro h
  unfold prepareSolanaDeployment at h
  split at h
  · try dsimp only at h
    split at h
    · simp at h
    · try dsimp only at h
      split at h
      · simp at h
      · try dsimp only at h
        split at h
        · simp at h
        · try dsimp only at h
          split at h <;> simp at h
  · simp at h

/-- Every file-write event of `deployNTT` writes `overrides.json` with the
fixed serialized overrides object. -/
theorem deployBody_writeFile_unique (cfg : PConfig) (w : World) (n c : String)
    (h : Event.writeFile n c ∈ (deployBody cfg w).1) :
    n = "overrides.json" ∧ c = overridesContent := by
  have hps := prepareSolana_no_writeFile cfg w n c
  unfold deployBody at h
  try dsimp only at h
  split at h
  · simp at h
  · try dsimp only at h
    split at h
    · simp at h
    · try dsimp only at h
      split at h
      · simp_all
      · try dsimp only at h
        split at h
        · simp_all
        · try dsimp only at h
          split at h
          · simp_all
          · try dsimp only at h
            split at h
            · simp_all
            · try dsimp only at h
              split at h <;> simp_all

end DeployNtt

namespace DeployNtt

/-- The prerequisite check never writes a file. -/
theorem checkPrerequisites_no_writeFile (w : World) (n c : String) :
    Event.writeFile n c ∉ (checkPrerequisites w).1 := by
  intro h
  have hev := probeTools_events w toolsList
  unfold checkPrerequisites at h
  rcases hq : probeTools w toolsList with ⟨ev, b⟩
  rw [hq] at h hev
  cases b
  · dsimp only at h
    rcases List.mem_append.mp h with h2 | h2
    · rcases hev _ h2 with ⟨t, ht, he⟩
      cases he
    · simp [remediationEvents] at h2
  · dsimp only at h
    rcases hev _ h with ⟨t, ht, he⟩
    cases he

/-- C7: for every configuration and world, any `overrides.json`-write the
deployment performs (indeed any file-write at all) has exactly the fixed
serialized content — the two-space-indented JSON object with the two
constant RPC endpoints — independent of every supplied argument value; the
content equals the explicit literal below; and whenever the prerequisite
probes, `ntt new` and `ntt init` succeed, the write is in fact performed. -/
theorem c7_overrides_content_fixed (cfg : PConfig) (w : World) :
    (∀ n c, Event.writeFile n c ∈ (deployNTT cfg w).1 →
        n = "overrides.json" ∧ c = overridesContent)
      ∧ overridesContent
          = "\x7b\n  \"chains\": \x7b\n    \"Base\": \x7b\n      \"rpc\": \"https://sepolia.base.org\"\n    \x7d,\n    \"Solana\": \x7b\n      \"rpc\": \"https://api.devnet.solana.com\"\n    \x7d\n  \x7d\n\x7d"
      ∧ ((∀ t ∈ toolsList, ∃ o, w.run ("which " ++ t) = .ok o) →
          (∃ o, w.run (newCmd (cfg.projectName.getD "")) = .ok o) →
          (∃ o, w.run initCmd = .ok o) →
          Event.writeFile "overrides.json" overridesContent ∈ (deployNTT cfg w).1) := by
  refine ⟨?_, by decide, ?_⟩
  · intro n c h
    unfold deployNTT at h
    rcases hq : checkPrerequisites w with ⟨ev, b⟩
    rw [hq] at h
    have hnw := checkPrerequisites_no_writeFile w n c
    rw [hq] at hnw
    cases b with
    | none =>
      dsimp only at h
      rcases List.mem_append.mp h with h2 | h2
      · exact absurd h2 hnw
      · exact deployBody_writeFile_unique cfg w n c h2
    | some code =>
      dsimp only at h
      exact absurd h hnw
  · intro hok hnew hinit
    rcases hnew with ⟨o1, h1⟩
    rcases hinit with ⟨o2, h2⟩
    have hp := probeTools_ok w toolsList hok
    have hc : checkPrerequisites w
        = (toolsList.map (fun t => Event.exec ("which " ++ t)), none) := by
      unfold checkPrerequisites
      rw [hp]
    unfold deployNTT
    rw [hc]
    simp only []
    apply List.mem_append_right
    unfold deployBody
    try dsimp only
    rw [h1]
    try dsimp only
    rw [h2]
    try dsimp only
    repeat' split
    all_goals simp

end DeployNtt

namespace DeployNtt

/-- Witness for C7: in the all-succeeding world the run writes
`overrides.json` with the fixed two-space-indented content. -/
theorem c7_witness :
    Event.writeFile "overrides.json" overridesContent
        ∈ (deployNTT demoCfgNoMode allOkWorld).1
      ∧ overridesContent
          = "\x7b\n  \"chains\": \x7b\n    \"Base\": \x7b\n      \"rpc\": \"https://sepolia.base.org\"\n    \x7d,\n    \"Solana\": \x7b\n      \"rpc\": \"https://api.devnet.solana.com\"\n    \x7d\n  \x7d\n\x7d" := by
  have h := c7_overrides_content_fixed demoCfgNoMode allOkWorld
  exact ⟨h.2.2 (fun t ht => ⟨"", rfl⟩) ⟨"", rfl⟩ ⟨"", rfl⟩, h.2.1⟩

end DeployNtt
